import Mathlib

/-!
Verification of the part_finder asynchronous project-processing core.

Shallow embedding of the Python sources under src/pcb_part_finder into Lean.
Database timestamps are modelled as natural numbers, opaque JSON payloads as
natural numbers, and Python runtime exceptions as an explicit inductive type.
Each definition carries a reference to the source function it embeds.
-/

namespace PartFinder

/-- Python exceptions that the embedded code can raise or handle.
`llmApi` is LlmApiError, `mouserApi` is MouserApiError, `sqlAlchemy` covers
SQLAlchemyError and its subclass IntegrityError, `typeErr` is TypeError,
`nameErr` is NameError, `validationErr` is pydantic ValidationError,
`otherErr` is any other exception. -/
inductive PyExc where
  | llmApi
  | mouserApi
  | sqlAlchemy
  | typeErr
  | nameErr
  | validationErr
  | otherErr
deriving DecidableEq, Repr

/-- Arity check performed by the Python runtime on a positional call: calling a
function whose positional parameters all lack defaults with a different number
of positional arguments raises TypeError before the body runs. -/
def pyCallCheck (args params : Nat) : Except PyExc Unit :=
  if args = params then Except.ok () else Except.error PyExc.typeErr

/-- Row of the projects table (src/pcb_part_finder/db/models.py, class Project). -/
structure ProjectRow where
  project_id : String
  name : Option String
  description : Option String
  status : String
  start_time : Option Nat
  end_time : Option Nat
  created_at : Nat
deriving DecidableEq, Repr

/-- The legal status-transition table of crud.update_project_status
(src/pcb_part_finder/db/crud.py lines 212-218). -/
def validTransitions : String → List String
  | "queued" => ["processing", "cancelled"]
  | "processing" => ["finished", "error", "cancelled"]
  | "finished" => ["cancelled"]
  | "error" => ["cancelled"]
  | "cancelled" => []
  | _ => []

/-- Embeds crud.update_project_status (db/crud.py lines 185-231) acting on a
project row that was found: validates the transition against the table, and on
success updates status and, when given, the start and end timestamps. Returns
the success flag together with the resulting row. -/
def update_project_status_row (p : ProjectRow) (new_status : String)
    (start_time end_time : Option Nat) : Bool × ProjectRow :=
  if new_status ∈ validTransitions p.status then
    (true,
      { p with
        status := new_status
        start_time := match start_time with | some t => some t | none => p.start_time
        end_time := match end_time with | some t => some t | none => p.end_time })
  else
    (false, p)

/-- Embeds crud.update_project_status including the not-found branch
(db/crud.py lines 207-209): a missing project returns failure. -/
def update_project_status (p : Option ProjectRow) (new_status : String)
    (start_time end_time : Option Nat) : Bool × Option ProjectRow :=
  match p with
  | none => (false, none)
  | some r =>
    let (ok, r2) := update_project_status_row r new_status start_time end_time
    (ok, some r2)

/-- Embeds the claim step of the queue runner (src/pcb_part_finder/core/queue.py
lines 58-74): after re-fetching the project by id it assigns
status = processing and the start timestamp directly on the row and commits,
without consulting the transition table of crud.update_project_status. -/
def queue_claim_step (p : ProjectRow) (now : Nat) : ProjectRow :=
  { p with status := "processing", start_time := some now }

/-- Row of the mouser_api_cache table (src/pcb_part_finder/core/models.py,
class MouserApiCache). The raw JSONB payload is modelled as an opaque Nat. -/
structure CacheRow where
  search_term : String
  search_type : String
  response_data : Nat
  cached_at : Nat
deriving DecidableEq, Repr

/-- Whether a cache row is for the given (search_term, search_type) pair. -/
def CacheRow.pairMatches (r : CacheRow) (term ty : String) : Bool :=
  r.search_term == term && r.search_type == ty

/-- Whether the cache table already holds a row for the pair. -/
def hasPair (tbl : List CacheRow) (term ty : String) : Bool :=
  tbl.any (fun r => r.pairMatches term ty)

/-- Embeds MouserApiCacheManager.cache_response
(src/pcb_part_finder/core/cache_manager.py lines 78-115): a plain INSERT of a
new row. The table carries the unique index
idx_mouser_cache_term_type on (search_term, search_type) (core/models.py
lines 17-19), so inserting a second row for an existing pair raises
IntegrityError, which the except SQLAlchemyError handler catches and rolls
back, leaving the table unchanged. -/
def cache_response (tbl : List CacheRow) (term ty : String)
    (response_data now : Nat) : List CacheRow :=
  if hasPair tbl term ty then
    tbl
  else
    tbl ++ [⟨term, ty, response_data, now⟩]

/-- Number of rows the table holds for a pair. -/
def pairCount (tbl : List CacheRow) (term ty : String) : Nat :=
  (tbl.filter (fun r => r.pairMatches term ty)).length

/-- The rows the table holds for a pair, in table order. -/
def rowsForPair (tbl : List CacheRow) (term ty : String) : List CacheRow :=
  tbl.filter (fun r => r.pairMatches term ty)

/-- At-rest uniqueness of the cache: at most one row per
(search_term, search_type) pair. -/
def PairUnique (tbl : List CacheRow) : Prop :=
  ∀ term ty, pairCount tbl term ty ≤ 1

/-- Embeds MouserApiCacheManager.get_cached_response
(core/cache_manager.py lines 17-76): among rows for the pair whose timestamp is
not older than max_age_seconds, return the payload of the newest one, else
nothing. The subtraction now - maxAge is on Nat, matching the source where
timestamps never precede the epoch. -/
def get_cached_response (tbl : List CacheRow) (term ty : String) (now : Nat)
    (maxAge : Nat := 86400) : Option Nat :=
  let fresh := tbl.filter (fun r => r.pairMatches term ty && now - maxAge ≤ r.cached_at)
  (fresh.foldl (fun best r =>
    match best with
    | none => some r
    | some b => if b.cached_at < r.cached_at then some r else some b) none).map
    (fun r => r.response_data)

/-! Mouser API client (src/pcb_part_finder/core/mouser_api.py). -/

/-- Module constant MAX_RETRIES (mouser_api.py line 19). -/
def MAX_RETRIES : Nat := 3

/-- Module constant RETRY_DELAY_SECONDS expressed in milliseconds
(mouser_api.py line 20). -/
def RETRY_DELAY_MS : Nat := 10000

/-- Module constant API_REQUEST_DELAY expressed in milliseconds
(mouser_api.py line 17). -/
def API_REQUEST_DELAY_MS : Nat := 500

/-- Body of an HTTP 200 response: either JSON that decodes, carrying whether
the application-level Errors list is non-empty and an opaque payload, or a
body that fails json decoding. -/
inductive JsonBody where
  | decoded (errorsNonempty : Bool) (payload : Nat)
  | undecodable
deriving DecidableEq, Repr

/-- Outcome the network produces for one physical request: an HTTP response
with a status code and body, or a transport failure
(requests.exceptions.RequestException). -/
inductive HttpResp where
  | resp (status : Nat) (body : JsonBody)
  | transport
deriving DecidableEq, Repr

/-- Whether an attempt outcome is an HTTP 429 response. -/
def isResp429 : HttpResp → Bool
  | HttpResp.resp status _ => status == 429
  | HttpResp.transport => false

/-- The sleep performed at the top of each loop iteration of
_make_mouser_request (mouser_api.py lines 53-58): RETRY_DELAY_SECONDS before
every retry, API_REQUEST_DELAY before the initial request. In milliseconds. -/
def delayFor (attempt : Nat) : Nat :=
  if attempt > 0 then RETRY_DELAY_MS else API_REQUEST_DELAY_MS

/-- Loop body of _make_mouser_request (mouser_api.py lines 50-102).
`attempt` is the loop variable, `rem` the number of loop iterations left,
`delays` the sleeps performed so far. Returns the result
(ok payload, or error standing for a raised MouserApiError), the number of
requests performed, and the list of sleeps. A 200 response with decodable
JSON and empty Errors returns the payload; a non-empty Errors list or an
undecodable body raises immediately; 429 and transport errors record
last_exception and continue the loop; any other status code records
last_exception and breaks; an exhausted loop raises last_exception. -/
def mouserRequestGo (responses : Nat → HttpResp) :
    Nat → Nat → List Nat → Except Unit Nat × Nat × List Nat
  | attempt, 0, delays => (Except.error (), attempt, delays)
  | attempt, rem + 1, delays =>
    let delays := delays ++ [delayFor attempt]
    match responses attempt with
    | HttpResp.transport => mouserRequestGo responses (attempt + 1) rem delays
    | HttpResp.resp status body =>
      if status = 200 then
        match body with
        | JsonBody.decoded true _ => (Except.error (), attempt + 1, delays)
        | JsonBody.decoded false payload => (Except.ok payload, attempt + 1, delays)
        | JsonBody.undecodable => (Except.error (), attempt + 1, delays)
      else if status = 429 then
        mouserRequestGo responses (attempt + 1) rem delays
      else
        (Except.error (), attempt + 1, delays)

/-- Embeds _make_mouser_request (mouser_api.py lines 41-102): the retry loop
runs for attempt in range(MAX_RETRIES + 1). -/
def _make_mouser_request (responses : Nat → HttpResp) :
    Except Unit Nat × Nat × List Nat :=
  mouserRequestGo responses 0 (MAX_RETRIES + 1) []

/-- Embeds search_mouser_by_keyword (mouser_api.py lines 104-173) at the level
the cache interaction is visible: consult the cache first and return the hit;
on a miss perform the request with retries; on success write the raw response
back through cache_response; on a raised MouserApiError re-raise without any
cache write. The extraction of the Parts list from the opaque payload is not
modelled. Returns the result, the resulting cache table, and the number of
remote requests performed. -/
def search_mouser_by_keyword (tbl : List CacheRow) (keyword : String)
    (now : Nat) (responses : Nat → HttpResp) :
    Except Unit Nat × List CacheRow × Nat :=
  match get_cached_response tbl keyword "keyword" now with
  | some payload => (Except.ok payload, tbl, 0)
  | none =>
    match _make_mouser_request responses with
    | (Except.ok raw, reqs, _) =>
      (Except.ok raw, cache_response tbl keyword "keyword" raw now, reqs)
    | (Except.error e, reqs, _) => (Except.error e, tbl, reqs)

/-- One entry of the PriceBreaks list of a raw Mouser part record. -/
structure PriceBreak where
  quantity : Option Nat
  price : Option String
deriving DecidableEq, Repr

/-- Raw part record as returned inside SearchResults.Parts of the Mouser API
response, restricted to the keys _parse_mouser_part_data reads. Missing keys
are none. -/
structure RawPart where
  mouserPartNumber : Option String
  manufacturerPartNumber : Option String
  manufacturer : Option String
  description : Option String
  dataSheetUrl : Option String
  priceBreaks : List PriceBreak
  availabilityInStock : Option String
  leadTime : Option String
deriving DecidableEq, Repr

/-- Comparison key used by the sort in _parse_mouser_part_data
(mouser_api.py line 185): Quantity ascending, a missing Quantity sorting last
(float inf). -/
def priceBreakLE (a b : PriceBreak) : Bool :=
  match a.quantity, b.quantity with
  | some qa, some qb => qa ≤ qb
  | some _, none => true
  | none, some _ => false
  | none, none => true

/-- Digit run to number, as Python int() reads a digit string. -/
def pyDigitsToNat (cs : List Char) : Nat :=
  cs.foldl (fun n c => n * 10 + (c.toNat - 48)) 0

/-- Python int() on a string: optional minus sign followed by digits, raising
ValueError otherwise. Surrounding whitespace handling is not modelled; the
source receives bare numeric strings. -/
def pyInt? (s : String) : Option Int :=
  match s.toList with
  | [] => none
  | '-' :: rest =>
    if rest ≠ [] && rest.all Char.isDigit then some (-(pyDigitsToNat rest : Int))
    else none
  | cs =>
    if cs.all Char.isDigit then some (pyDigitsToNat cs) else none

/-- The string forms that Python float() and decimal.Decimal() accept, to the
extent the embedded code meets them: a non-empty run of digits with at most
one decimal point. The pydantic coercion of a string to a float field succeeds
exactly on such strings and raises ValidationError otherwise. -/
def isPyFloatString (s : String) : Bool :=
  s.toList ≠ [] && s.toList.any Char.isDigit &&
    s.toList.all (fun c => c.isDigit || c == '.') &&
    (s.toList.filter (fun c => c == '.')).length ≤ 1

/-- Normalized part record produced by _parse_mouser_part_data
(mouser_api.py lines 203-211). -/
structure ParsedPart where
  mouser_part_number : String
  manufacturer_part_number : String
  manufacturer_name : String
  mouser_description : String
  datasheet_url : String
  price : String
  availability : String
deriving DecidableEq, Repr

/-- Stable insertion of a price break into an already sorted list, keeping
earlier elements first on equal keys, as Python list.sort does. -/
def insertBreak (b : PriceBreak) : List PriceBreak → List PriceBreak
  | [] => [b]
  | c :: rest => if priceBreakLE b c then b :: c :: rest else c :: insertBreak b rest

/-- Stable ascending sort of the PriceBreaks list by Quantity, the sort
performed at mouser_api.py line 185. -/
def sortPriceBreaks : List PriceBreak → List PriceBreak
  | [] => []
  | b :: rest => insertBreak b (sortPriceBreaks rest)

/-- Removal of dollar signs from a price string, the replace of
mouser_api.py line 188. -/
def stripDollars (s : String) : String :=
  String.mk (s.toList.filter (fun c => c ≠ '$'))

/-- Price extraction of _parse_mouser_part_data (mouser_api.py lines 180-190):
with a non-empty PriceBreaks list, sort by Quantity ascending, take the Price
string of the lowest break (defaulting to N/A when the key is missing) and
strip any dollar sign; with an empty list the price stays None. -/
def extractPrice (breaks : List PriceBreak) : Option String :=
  match sortPriceBreaks breaks with
  | [] => none
  | b :: _ => some (stripDollars (b.price.getD "N/A"))

/-- Availability extraction of _parse_mouser_part_data (mouser_api.py lines
192-201): a positive integer AvailabilityInStock gives In Stock; otherwise a
truthy LeadTime gives the lead-time string; an unparsable stock value falls
through to Unknown. -/
def extractAvailability (stock leadTime : Option String) : String :=
  match pyInt? (stock.getD "0") with
  | some n =>
    if n > 0 then "In Stock"
    else
      match leadTime with
      | some lt => if lt ≠ "" then "Lead Time: " ++ lt else "Unknown"
      | none => "Unknown"
  | none => "Unknown"

/-- Embeds _parse_mouser_part_data (mouser_api.py lines 175-211) on a part
record drawn from a non-empty Parts list (the falsy-input guard of line 177
concerns an empty record and is handled by the callers before parsing).
Missing string keys default to the empty string; a None price renders as the
string N/A. -/
def _parse_mouser_part_data (p : RawPart) : ParsedPart :=
  let priceOpt := extractPrice p.priceBreaks
  { mouser_part_number := p.mouserPartNumber.getD ""
    manufacturer_part_number := p.manufacturerPartNumber.getD ""
    manufacturer_name := p.manufacturer.getD ""
    mouser_description := p.description.getD ""
    datasheet_url := p.dataSheetUrl.getD ""
    price := match priceOpt with
      | none => "N/A"
      | some s => if s = "" then "N/A" else s
    availability := extractAvailability p.availabilityInStock p.leadTime }

/-! LLM handler (src/pcb_part_finder/core/llm_handler.py). -/

/-- Comma splitting of a character list: the pieces between commas, in order. -/
def splitCommaChars : List Char → List Char → List (List Char)
  | [], cur => [cur.reverse]
  | c :: rest, cur =>
    if c = ',' then cur.reverse :: splitCommaChars rest []
    else splitCommaChars rest (c :: cur)

/-- Python str.split on a comma. -/
def pySplitCommas (s : String) : List String :=
  (splitCommaChars s.toList []).map String.mk

/-- Python str.strip: remove leading and trailing whitespace. -/
def pyStrip (s : String) : String :=
  String.mk (((s.toList.dropWhile Char.isWhitespace).reverse.dropWhile
    Char.isWhitespace).reverse)

/-- Embeds parse_search_terms (core/llm_handler.py lines 100-115): a falsy
response gives no terms; otherwise split on commas, strip whitespace and drop
empty terms. -/
def parse_search_terms (llm_response : Option String) : List String :=
  match llm_response with
  | none => []
  | some s =>
    if s = "" then []
    else ((pySplitCommas s).map pyStrip).filter (fun t => t ≠ "")

/-! Per-item matching pipeline
(_process_single_bom_item, src/pcb_part_finder/core/processor.py lines 41-239). -/

/-- A Mouser keyword-search result restricted to the key the dedup loop reads
(processor.py line 116). -/
structure MouserPart where
  mouserPartNumber : Option String
deriving DecidableEq, Repr

/-- A row of the bom_item_matches table as written by create_bom_item_match
(db/crud.py lines 311-336). -/
structure MatchRow where
  bom_item_id : Nat
  component_id : Option Nat
  match_status : String
deriving DecidableEq, Repr

/-- Environment of one worker run: the outcomes of the external calls the
pipeline makes. Each field is the behaviour of one collaborator; an error
value is an exception raised by that call. `evalChosenMpn` folds
get_llm_response on the evaluation prompt and extract_mpn_from_eval into one
outcome (the extracted MPN, none when no token was found). `getOrCreate` is
the outcome crud.get_or_create_component would produce were it reached.
`commitOk` is whether the final db.commit of the match row succeeds. -/
structure ItemEnv where
  searchLlm : Except PyExc (Option String)
  keyword : String → Except PyExc (List MouserPart)
  evalChosenMpn : Except PyExc (Option String)
  componentByMpn : String → Except PyExc (Option Nat)
  mpnSearch : String → Except PyExc (Option ParsedPart)
  getOrCreate : Except PyExc (Option Nat)
  commitOk : Bool

/-- Truthiness of an optional string in Python: None and the empty string are
falsy. -/
def truthyOpt : Option String → Bool
  | none => false
  | some s => s ≠ ""

/-- Step 2 of the worker (processor.py lines 87-101): generate search terms.
Returns the status after the step and the parsed terms. An LlmApiError maps to
llm_error, any other exception to processing_error, an empty term list to
search_term_failed. -/
def step2 (env : ItemEnv) : String × List String :=
  match env.searchLlm with
  | Except.ok resp =>
    let terms := parse_search_terms resp
    if terms.isEmpty then ("search_term_failed", terms) else ("pending", terms)
  | Except.error PyExc.llmApi => ("llm_error", [])
  | Except.error _ => ("processing_error", [])

/-- The dedup accumulation of the keyword-search loop (processor.py lines
115-119): parts whose MouserPartNumber is truthy and unseen are appended, in
first-seen order. The state is the accumulated results together with the set
of seen part numbers. -/
def dedupAdd (st : List MouserPart × List String) (parts : List MouserPart) :
    List MouserPart × List String :=
  parts.foldl
    (fun (st : List MouserPart × List String) part =>
      match part.mouserPartNumber with
      | some pn =>
        if pn ≠ "" && !(st.2.contains pn) then (st.1 ++ [part], st.2 ++ [pn])
        else st
      | none => st)
    st

/-- The for-loop over search terms of step 3 (processor.py lines 108-119),
with the exception handling of lines 123-128: a MouserApiError maps to
mouser_error, any other exception to processing_error, and either aborts the
loop. -/
def step3Loop (env : ItemEnv) :
    List String → List MouserPart → List String → String × List MouserPart
  | [], acc, _ => ("pending", acc)
  | t :: ts, acc, seen =>
    match env.keyword t with
    | Except.ok parts =>
      let st := dedupAdd (acc, seen) parts
      step3Loop env ts st.1 st.2
    | Except.error PyExc.mouserApi => ("mouser_error", acc)
    | Except.error _ => ("processing_error", acc)

/-- Step 3 of the worker (processor.py lines 103-128): keyword search over all
terms with dedup; when the loop completes with no unique results the status
becomes no_keyword_results. -/
def step3 (env : ItemEnv) (terms : List String) : String × List MouserPart :=
  let r := step3Loop env terms [] []
  if r.1 == "pending" && r.2.isEmpty then ("no_keyword_results", r.2) else r

/-- Parameter count of core/llm_handler.format_evaluation_prompt
(core/llm_handler.py line 123): part_info, project_notes, bom_list,
mouser_results. -/
def format_evaluation_prompt_params : Nat := 4

/-- Positional arguments passed to format_evaluation_prompt by the worker
(processor.py lines 134-140): part_info, project_name, project_description,
full_bom_list, mouser_results. -/
def format_evaluation_prompt_args : Nat := 5

/-- The body of step 4 (processor.py lines 133-142): the call to
format_evaluation_prompt is checked for arity by the Python runtime first;
only a successful call proceeds to the LLM and the MPN extraction. -/
def step4Body (env : ItemEnv) : Except PyExc (Option String) := do
  let _ ← pyCallCheck format_evaluation_prompt_args format_evaluation_prompt_params
  env.evalChosenMpn

/-- Step 4 of the worker (processor.py lines 130-151): evaluate the candidates
with the LLM. A falsy extracted MPN maps to evaluation_failed, an LlmApiError
to llm_error, any other exception (here the TypeError of the mismatched call)
to processing_error. -/
def step4 (env : ItemEnv) : String × Option String :=
  match step4Body env with
  | Except.ok chosen =>
    if truthyOpt chosen then ("pending", chosen) else ("evaluation_failed", none)
  | Except.error PyExc.llmApi => ("llm_error", none)
  | Except.error _ => ("processing_error", none)

/-- Required positional parameters of crud.get_or_create_component
(db/crud.py lines 233-243): db, mouser_part_number, manufacturer_part_number. -/
def get_or_create_component_params : Nat := 3

/-- Positional arguments passed at the call site (processor.py line 182):
db and the component_data dict. -/
def get_or_create_component_args : Nat := 2

/-- The body of step 5 (processor.py lines 155-192): look the chosen MPN up in
the components table; on a miss query Mouser by MPN and, when found, call
get_or_create_component — a call whose arity the Python runtime rejects with
TypeError before crud code runs. -/
def step5Body (env : ItemEnv) (mpn : String) : Except PyExc (String × Option Nat) := do
  match ← env.componentByMpn mpn with
  | some cid => pure ("matched", some cid)
  | none =>
    match ← env.mpnSearch mpn with
    | none => pure ("mpn_lookup_failed", none)
    | some _ => do
      let _ ← pyCallCheck get_or_create_component_args get_or_create_component_params
      match ← env.getOrCreate with
      | some cid => pure ("matched", some cid)
      | none => pure ("component_db_error", none)

/-- Step 5 with its exception handlers (processor.py lines 193-203): a
MouserApiError maps to mouser_error; for any other exception the handler chain
evaluates the clause except SQLAlchemyError of line 196, and since
SQLAlchemyError is not imported in processor.py that evaluation raises a
NameError which escapes the step and propagates to the outer handler. -/
def step5 (env : ItemEnv) (mpn : String) : Except PyExc (String × Option Nat) :=
  match step5Body env mpn with
  | Except.ok r => Except.ok r
  | Except.error PyExc.mouserApi => Except.ok ("mouser_error", none)
  | Except.error _ => Except.error PyExc.nameErr

/-- Steps 2 through 5 of the worker with the status guards of the source: each
later step runs only while the status is still pending (processor.py lines
106, 132, 154). An error value is an exception escaping to the outer handler. -/
def runSteps (env : ItemEnv) : Except PyExc (String × Option Nat) :=
  let s2 := step2 env
  let s3 := if s2.1 == "pending" && !s2.2.isEmpty then step3 env s2.2 else (s2.1, [])
  let s4 := if s3.1 == "pending" && !s3.2.isEmpty then step4 env else (s3.1, none)
  if s4.1 == "pending" && truthyOpt s4.2 then
    step5 env (s4.2.getD "")
  else
    Except.ok (s4.1, none)

/-- Embeds _process_single_bom_item (processor.py lines 41-239). Returns the
final status the worker reports and the match row committed for the item, if
any. A still-pending status at the save point falls back to the bare status
error (line 209). A failing commit raises; the except SQLAlchemyError clause
of line 221 evaluates an unbound name, so the NameError reaches the outer
handler of line 230, which reports worker_uncaught_exception after rolling
back, leaving no row. -/
def _process_single_bom_item (env : ItemEnv) (bom_item_id : Nat) :
    String × Option MatchRow :=
  match runSteps env with
  | Except.error _ => ("worker_uncaught_exception", none)
  | Except.ok (st, cid) =>
    let st := if st = "pending" then "error" else st
    if env.commitOk then (st, some ⟨bom_item_id, cid, st⟩)
    else ("worker_uncaught_exception", none)

/-! Project orchestration
(process_project_from_db, src/pcb_part_finder/core/processor.py lines 241-425). -/

/-- Modelled from the spec: load_project_data_from_db is referenced by
processor.py line 21 and by tests/core/test_data_loader.py but is not defined
in the sources; per spec section 4.6 it loads the project and its BomItems,
yields none for a missing project, and may raise on a database fault. Its
outcome is therefore an explicit parameter of the orchestration embedding:
the call either raises, reports the project as missing, or yields the project
data together with its BOM items, here paired with the environment each item
worker will run in. -/
inductive LoadOutcome where
  | raises
  | notFound
  | ok (name description : Option String) (items : List (Nat × ItemEnv))

/-- Embeds process_project_from_db (processor.py lines 241-425). On a load
exception the project is moved to error with an end timestamp and the call
reports setup failure; on a missing project it returns failure without a
status update (line 281); otherwise every item is processed, the collected
per-item statuses are not consulted for the final state, the project is moved
to finished with an end timestamp (line 355: finished regardless of individual
errors), and the call reports success. Returns the success flag, the project
row, and the match rows the item workers committed. -/
def process_project_from_db (load : LoadOutcome) (proj : ProjectRow) (now : Nat) :
    Bool × ProjectRow × List MatchRow :=
  match load with
  | LoadOutcome.raises =>
    (false, (update_project_status_row proj "error" none (some now)).2, [])
  | LoadOutcome.notFound => (false, proj, [])
  | LoadOutcome.ok _ _ items =>
    let results := items.map (fun it => _process_single_bom_item it.2 it.1)
    let rows := results.filterMap (fun r => r.2)
    (true, (update_project_status_row proj "finished" none (some now)).2, rows)

/-- The closed final-status vocabulary of the match pipeline. -/
def statusVocab : List String :=
  ["matched", "search_term_failed", "no_keyword_results", "evaluation_failed",
   "mpn_lookup_failed", "component_db_error", "llm_error", "mouser_error",
   "processing_error", "db_save_error", "worker_uncaught_exception"]

/-! Store rows and query-order model (src/pcb_part_finder/db). -/

/-- Row of the bom_items table (db/models.py, class BomItem). -/
structure BomItemRow where
  bom_item_id : Nat
  project_id : String
  quantity : Option Int
  description : Option String
  package : Option String
  notes : Option String
  created_at : Nat
deriving DecidableEq, Repr

/-- Row of the components table (db/models.py, class Component). The DECIMAL
price is carried as its numeric string. -/
structure ComponentRow where
  component_id : Nat
  mouser_part_number : Option String
  manufacturer_part_number : Option String
  manufacturer_name : Option String
  description : Option String
  datasheet_url : Option String
  price : Option String
  availability : Option String
deriving DecidableEq, Repr

/-- A presentation order the database engine may choose for the rows of a
SELECT that carries no ORDER BY: any reordering of the matching rows. SQL
leaves this order unspecified, so the embedding makes it an explicit
parameter. -/
def DbPresentation (present : List α → List α) : Prop :=
  ∀ l : List α, (present l).Perm l

/-- Embeds get_bom_items_for_project (db/crud.py lines 84-98): filter the
bom_items table by project and return the rows in the order the database
chooses — the query has no order_by clause. -/
def get_bom_items_for_project (tbl : List BomItemRow) (project_id : String)
    (present : List BomItemRow → List BomItemRow) : List BomItemRow :=
  present (tbl.filter (fun r => r.project_id == project_id))

/-- The tuples produced by the LEFT OUTER JOINs of get_finished_project_data
(db/crud.py lines 353-359), starting from the bom_items rows of the project:
an item with no match contributes one tuple with empty match and component; an
item with matches contributes one tuple per match, with the component joined
through the match when its component_id resolves. -/
def finishedJoinRows (items : List BomItemRow) (matchRows : List MatchRow)
    (comps : List ComponentRow) (project_id : String) :
    List (BomItemRow × Option MatchRow × Option ComponentRow) :=
  (items.filter (fun r => r.project_id == project_id)).flatMap (fun b =>
    match matchRows.filter (fun m => m.bom_item_id == b.bom_item_id) with
    | [] => [(b, none, none)]
    | ms => ms.map (fun m =>
        (b, some m, m.component_id.bind
          (fun cid => comps.find? (fun c => c.component_id == cid)))))

/-- Embeds get_finished_project_data (db/crud.py lines 338-361): the outer
join result in the order the database chooses — the query has no order_by
clause. -/
def get_finished_project_data (items : List BomItemRow) (matchRows : List MatchRow)
    (comps : List ComponentRow) (project_id : String)
    (present : List (BomItemRow × Option MatchRow × Option ComponentRow) →
      List (BomItemRow × Option MatchRow × Option ComponentRow)) :
    List (BomItemRow × Option MatchRow × Option ComponentRow) :=
  present (finishedJoinRows items matchRows comps project_id)

/-! Ingestion (create_project, src/pcb_part_finder/api/projects.py lines 72-208). -/

/-- The canonical component shape of schemas.BOMComponent
(src/pcb_part_finder/schemas.py lines 4-10). -/
structure BOMComponent where
  qty : Int
  description : String
  possible_mpn : Option String
  package : Option String
  notes : Option String
deriving DecidableEq, Repr

/-- A raw component dictionary from the request body, restricted to the keys
the endpoint reads. A field is some value when the key is present with a value
of the accepted type; a key that is absent, or present with a value pydantic
will not coerce, is none. `jsonRepr` is the json.dumps rendering of the whole
dictionary used in fallback descriptions. -/
structure RawDict where
  qty : Option Int
  description : Option String
  package : Option String
  possible_mpn : Option String
  notes : Option String
  jsonRepr : String
deriving DecidableEq, Repr

/-- An element of the components list of the request body: a dictionary or a
value of another shape (line 123 isinstance check), carried with its json
rendering. -/
inductive RawRow where
  | dict (d : RawDict)
  | nonDict (jsonRepr : String)
deriving DecidableEq, Repr

/-- Embeds BOMComponent.model_validate (projects.py line 139): validation
succeeds when the required qty and description fields are present with the
right type; the optional fields pass through. -/
def model_validate (d : RawDict) : Option BOMComponent :=
  match d.qty, d.description with
  | some q, some ds => some ⟨q, ds, d.possible_mpn, d.package, d.notes⟩
  | _, _ => none

/-- Per-row processing of the components loop (projects.py lines 122-154): a
non-dictionary row becomes a qty 1 fallback; a dictionary is validated, and on
ValidationError a fallback is synthesized that keeps an integer qty when one
is present, prefixes the description with the original data, and defaults the
package to unknown. -/
def processRow (r : RawRow) : BOMComponent :=
  match r with
  | RawRow.nonDict jsonRepr =>
    ⟨1, "Invalid component data (not a dictionary): " ++ jsonRepr, none, some "unknown", none⟩
  | RawRow.dict d =>
    match model_validate d with
    | some c => c
    | none =>
      ⟨d.qty.getD 1, "Original Data (validation failed): " ++ d.jsonRepr,
        d.possible_mpn, some (d.package.getD "unknown"), d.notes⟩

/-- Outcome of the unconditional LLM reformat pass (projects.py lines 94-118):
the LLM call raises, returns a falsy response, returns a response that fails
json parsing, parses to a non-list, or parses to a list of rows. -/
inductive ReformatOutcome where
  | llmError
  | emptyResponse
  | badJson
  | notAList
  | list (rows : List RawRow)

/-- Whether the reformat outcome sets use_llm_output (projects.py line 113). -/
def usesLlmOutput : ReformatOutcome → Bool
  | ReformatOutcome.list _ => true
  | _ => false

/-- Result of the ingestion endpoint, restricted to what the claims observe. -/
structure IngestResult where
  llmCalled : Bool
  usedLlmOutput : Bool
  components : List BOMComponent
  truncated : Bool
deriving DecidableEq, Repr

/-- Embeds create_project (api/projects.py lines 72-208) for a request whose
components field is a list. The reformat prompt is sent to the LLM before any
row is validated (lines 94-118), unconditionally; validation then runs over
the LLM output when it was a well-formed list and over the raw rows otherwise
(line 121); finally the list is truncated to 20 rows (lines 156-161). -/
def create_project (raw_components : List RawRow) (reformat : ReformatOutcome) :
    IngestResult :=
  let components_to_process :=
    match reformat with
    | ReformatOutcome.list rows => rows
    | _ => raw_components
  let processed := components_to_process.foldl (fun acc c => acc ++ [processRow c]) []
  { llmCalled := true
    usedLlmOutput := usesLlmOutput reformat
    components := if processed.length > 20 then processed.take 20 else processed
    truncated := processed.length > 20 }

/-! GET /project/id, queued branch
(get_project, src/pcb_part_finder/api/projects.py lines 210-258). -/

/-- The InputBOM response model (src/pcb_part_finder/schemas.py lines 12-16):
project_name is a required non-null string, project_description optional. -/
structure InputBOMModel where
  project_name : String
  project_description : Option String
  components : List BOMComponent
deriving DecidableEq, Repr

/-- Pydantic construction of a BOMComponent from a bom_items row (projects.py
lines 239-244): qty and description are required, so a row whose quantity or
description column is null fails validation. -/
def mkBOMComponent (it : BomItemRow) : Except PyExc BOMComponent :=
  match it.quantity, it.description with
  | some q, some ds => Except.ok ⟨q, ds, it.notes, it.package, none⟩
  | _, _ => Except.error PyExc.validationErr

/-- Pydantic construction of the InputBOM response model (projects.py lines
247-251): passing None for the required project_name field raises
ValidationError. -/
def input_bom_validate (name : Option String) (description : Option String)
    (components : List BOMComponent) : Except PyExc InputBOMModel :=
  match name with
  | none => Except.error PyExc.validationErr
  | some n => Except.ok ⟨n, description, components⟩

/-- The response of the queued branch. -/
structure QueuedResponse where
  status : String
  position : Nat
  total_in_queue : Nat
  bom : InputBOMModel
deriving DecidableEq, Repr

/-- The loop of the queued branch of get_project (projects.py lines 237-245):
reconstruct a BOMComponent per bom_items row; a pydantic ValidationError
escapes the endpoint, which FastAPI surfaces as a server error. -/
def buildComponents : List BomItemRow → Except PyExc (List BOMComponent)
  | [] => Except.ok []
  | it :: rest =>
    match mkBOMComponent it with
    | Except.error e => Except.error e
    | Except.ok c =>
      match buildComponents rest with
      | Except.error e => Except.error e
      | Except.ok cs => Except.ok (c :: cs)

/-- Embeds the queued branch of get_project (projects.py lines 229-258),
second part: the loop over items building BOMComponents followed by the
InputBOM construction and the queued payload. -/
def get_project_queued (proj : ProjectRow) (items : List BomItemRow)
    (position total : Nat) : Except PyExc QueuedResponse :=
  match buildComponents items with
  | Except.error e => Except.error e
  | Except.ok components =>
    match input_bom_validate proj.name proj.description components with
    | Except.error e => Except.error e
    | Except.ok bom => Except.ok ⟨"queued", position, total, bom⟩

/-! GET /project/id, potential-match backfill of the finished branch
(get_project, src/pcb_part_finder/api/projects.py lines 540-675). -/

/-- Row of the potential_bom_matches table (db/models.py is superseded here by
crud.create_potential_bom_match, db/crud.py lines 363-396). -/
structure PotentialRow where
  bom_item_id : Nat
  rank : Nat
  manufacturer_part_number : String
  reason : Option String
  selection_state : String
  component_id : Option Nat
deriving DecidableEq, Repr

/-- The potential_match dictionary the endpoint builds (projects.py lines
557-570) before it is validated into the PotentialMatch response model. The
price slot holds whatever Python value was last assigned: none, a numeric
string from a component row, or the raw price string of a parsed Mouser
record. -/
structure PMDict where
  rank : Nat
  manufacturer_part_number : String
  reason : Option String
  selection_state : String
  mouser_part_number : Option String
  manufacturer_name : Option String
  mouser_description : Option String
  datasheet_url : Option String
  price : Option String
  availability : Option String
  component_id : Option Nat
deriving DecidableEq, Repr

/-- Pydantic validation of the PotentialMatch response model
(schemas.py lines 18-29) at the constructor call of projects.py line 671: the
price field is Optional float, so a present price string is coerced and a
non-numeric string such as N/A raises ValidationError. -/
def pydantic_validate_potential_match (d : PMDict) : Except PyExc PMDict :=
  match d.price with
  | none => Except.ok d
  | some s => if isPyFloatString s then Except.ok d else Except.error PyExc.validationErr

/-- Embeds the construction of one potential match in the finished branch
(projects.py lines 544-671). With a linked component the fields are copied
from the row. Otherwise the Mouser fetch runs inside a try block whose except
clause continues with partial data: a raised exception or an absent part
leaves the base dictionary; a parsed part fills the distributor fields
including its raw price string, after which the component write converts the
price with Decimal, an operation that raises on a non-numeric string — caught
by the same clause, skipping the component_id link but keeping the already
assigned partial fields. The final PotentialMatch construction sits outside
the try block, so its ValidationError propagates. -/
def build_potential_match (pm : PotentialRow) (linked : Option ComponentRow)
    (fetch : Except PyExc (Option ParsedPart)) (newComponentId : Nat) :
    Except PyExc PMDict :=
  let base : PMDict :=
    ⟨pm.rank, pm.manufacturer_part_number, pm.reason, pm.selection_state,
      none, none, none, none, none, none, none⟩
  let d : PMDict :=
    match linked with
    | some c =>
      { base with
        mouser_part_number := c.mouser_part_number
        manufacturer_name := c.manufacturer_name
        mouser_description := c.description
        datasheet_url := c.datasheet_url
        price := c.price
        availability := c.availability
        component_id := some c.component_id }
    | none =>
      match fetch with
      | Except.error _ => base
      | Except.ok none => base
      | Except.ok (some md) =>
        let d1 := { base with
          mouser_part_number := some md.mouser_part_number
          manufacturer_name := some md.manufacturer_name
          mouser_description := some md.mouser_description
          datasheet_url := some md.datasheet_url
          price := some md.price
          availability := some md.availability }
        if isPyFloatString md.price then { d1 with component_id := some newComponentId }
        else d1
  pydantic_validate_potential_match d

/-- Embeds the potential-match loop of the finished branch (projects.py lines
541-673) over the rows of one BOM item: each potential row is built in turn
and the first escaping exception aborts the read. Every row is given with the
component the database linked for it, the outcome of its Mouser fetch, and the
component id a successful backfill write would allocate. -/
def get_project_finished_potentials :
    List (PotentialRow × Option ComponentRow × Except PyExc (Option ParsedPart) × Nat) →
    Except PyExc (List PMDict)
  | [] => Except.ok []
  | r :: rest =>
    match build_potential_match r.1 r.2.1 r.2.2.1 r.2.2.2 with
    | Except.error e => Except.error e
    | Except.ok d =>
      match get_project_finished_potentials rest with
      | Except.error e => Except.error e
      | Except.ok ds => Except.ok (d :: ds)

/-! Concrete fixtures used by witnesses and counterexamples. -/

/-- A project row sitting in the cancelled state. -/
def projCancelled : ProjectRow :=
  ⟨"p1", some "board", none, "cancelled", none, none, 0⟩

/-- A project row sitting in the queued state. -/
def projQueued : ProjectRow :=
  ⟨"p2", some "board", none, "queued", none, none, 0⟩

/-- A project row sitting in the processing state. -/
def projProcessing : ProjectRow :=
  ⟨"p3", some "board", none, "processing", some 1, none, 0⟩

/-- A queued project row whose optional name column is null. -/
def projQueuedNoName : ProjectRow :=
  ⟨"p4", none, some "esp32", "queued", none, none, 0⟩

/-- An environment in which every external collaborator behaves: the LLM
produces two search terms, the keyword search returns one candidate part, the
LLM evaluation would choose an MPN, the Store already holds a component for
that MPN, the Mouser MPN search would also resolve it, and the final commit
succeeds. -/
def happyEnv : ItemEnv :=
  { searchLlm := Except.ok (some "res 10k, res 0805")
    keyword := fun _ => Except.ok [⟨some "M1"⟩]
    evalChosenMpn := Except.ok (some "MPN1")
    componentByMpn := fun _ => Except.ok (some 3)
    mpnSearch := fun _ => Except.ok none
    getOrCreate := Except.ok (some 3)
    commitOk := true }

/-- The same environment with a failing final commit. -/
def envSaveFail : ItemEnv := { happyEnv with commitOk := false }

/-- Network behaviour that answers every request with HTTP 429. -/
def resp429 : Nat → HttpResp := fun _ => HttpResp.resp 429 (JsonBody.decoded false 0)

/-- Two BOM items of the same project, created in id order. -/
def bomIt1 : BomItemRow := ⟨1, "p", some 1, some "r10k", none, none, 1⟩

/-- Second BOM item of the same project. -/
def bomIt2 : BomItemRow := ⟨2, "p", some 1, some "c100n", none, none, 2⟩

/-- A raw component row that validates directly against the canonical shape. -/
def validRawRow : RawRow :=
  RawRow.dict ⟨some 1, some "10k resistor", some "0805", none, none, "row1"⟩

/-- A raw Mouser part record whose PriceBreaks list is empty. -/
def rawPartNoBreaks : RawPart :=
  ⟨some "M123", some "MPN9", some "ACME", some "res", some "url", [], some "5000", none⟩

/-- A potential-match row with no linked component. -/
def pmRowEx : PotentialRow := ⟨1, 1, "MPN9", none, "proposed", none⟩

/-! Theorems. Helper lemmas first. -/

theorem hasPair_false_filter {tbl : List CacheRow} {term ty : String}
    (h : hasPair tbl term ty = false) :
    tbl.filter (fun r => r.pairMatches term ty) = [] := by
  simp only [hasPair, List.any_eq_false] at h
  simpa [List.filter_eq_nil_iff] using h

theorem cache_response_hasPair {tbl : List CacheRow} {term ty : String}
    (h : hasPair tbl term ty = true) (p t : Nat) :
    cache_response tbl term ty p t = tbl := by
  simp [cache_response, h]

theorem foldl_cache_response_hasPair {term ty : String}
    (puts : List (Nat × Nat)) (tbl : List CacheRow)
    (h : hasPair tbl term ty = true) :
    puts.foldl (fun tb q => cache_response tb term ty q.1 q.2) tbl = tbl := by
  induction puts with
  | nil => rfl
  | cons q rest ih =>
    simp only [List.foldl_cons, cache_response_hasPair h]
    exact ih

/-- C2: the claim as stated is false: after a second put for a pair that
already has a row, the stored payload is the first written one, not the newest.
Concretely, writing payload 1 and then payload 2 for the same pair leaves the
single row holding payload 1 with its original timestamp. -/
theorem c2_cache_newest_wins_counterexample :
    cache_response (cache_response [] "r10k" "keyword" 1 10) "r10k" "keyword" 2 20
      = [⟨"r10k", "keyword", 1, 10⟩] ∧ (1 : Nat) ≠ 2 := by
  exact ⟨by decide, by decide⟩

/-- C2 amended: the (search_term, search_type) pair is unique at rest — any
put preserves at most one row per pair — but on re-insert the FIRST write
wins: a put for a pair that already has a row leaves the table unchanged, and
any non-empty sequence of puts for a pair not yet present converges to exactly
one row holding the first payload and timestamp, all later ones being
discarded. -/
theorem pairCount_append (tbl extra : List CacheRow) (term ty : String) :
    pairCount (tbl ++ extra) term ty = pairCount tbl term ty + pairCount extra term ty := by
  simp [pairCount, List.filter_append]

theorem hasPair_false_count {tbl : List CacheRow} {term ty : String}
    (h : hasPair tbl term ty = false) : pairCount tbl term ty = 0 := by
  simp [pairCount, hasPair_false_filter h]

theorem c2_cache_uniqueness (tbl : List CacheRow) (term ty : String)
    (p t : Nat) (puts : List (Nat × Nat)) :
    (PairUnique tbl → PairUnique (cache_response tbl term ty p t))
    ∧ (hasPair tbl term ty = true → cache_response tbl term ty p t = tbl)
    ∧ (hasPair tbl term ty = false →
        rowsForPair
          (puts.foldl (fun tb q => cache_response tb term ty q.1 q.2)
            (cache_response tbl term ty p t)) term ty
          = [⟨term, ty, p, t⟩]) := by
  refine ⟨?_, fun h => cache_response_hasPair h p t, ?_⟩
  · intro hU term2 ty2
    by_cases h : hasPair tbl term ty
    · rw [cache_response_hasPair h]
      exact hU term2 ty2
    · simp only [Bool.not_eq_true] at h
      have hins : cache_response tbl term ty p t = tbl ++ [⟨term, ty, p, t⟩] := by
        simp [cache_response, h]
      rw [hins, pairCount_append]
      by_cases hm : CacheRow.pairMatches ⟨term, ty, p, t⟩ term2 ty2 = true
      · have hpair : term = term2 ∧ ty = ty2 := by
          simpa [CacheRow.pairMatches] using hm
        obtain ⟨rfl, rfl⟩ := hpair
        have h0 : pairCount tbl term ty = 0 := hasPair_false_count h
        have h1 : pairCount [(⟨term, ty, p, t⟩ : CacheRow)] term ty = 1 := by
          simp [pairCount, List.filter_cons, hm]
        omega
      · simp only [Bool.not_eq_true] at hm
        have h1 : pairCount [(⟨term, ty, p, t⟩ : CacheRow)] term2 ty2 = 0 := by
          simp [pairCount, List.filter_cons, hm]
        have := hU term2 ty2
        omega
  · intro h
    have hfirst : cache_response tbl term ty p t = tbl ++ [⟨term, ty, p, t⟩] := by
      simp [cache_response, h]
    have hmem : hasPair (tbl ++ [⟨term, ty, p, t⟩]) term ty = true := by
      simp [hasPair, CacheRow.pairMatches]
    rw [hfirst, foldl_cache_response_hasPair puts _ hmem]
    unfold rowsForPair
    rw [List.filter_append, hasPair_false_filter h]
    simp [CacheRow.pairMatches]

/-- C2 witness: the amended theorem applied at a concrete table and put
sequence. -/
theorem c2_cache_uniqueness_witness :
    rowsForPair
      ([(5, 50), (6, 60)].foldl
        (fun tb q => cache_response tb "lm358" "mpn" q.1 q.2)
        (cache_response [⟨"x", "keyword", 9, 1⟩] "lm358" "mpn" 4 40)) "lm358" "mpn"
      = [⟨"lm358", "mpn", 4, 40⟩] :=
  (c2_cache_uniqueness [⟨"x", "keyword", 9, 1⟩] "lm358" "mpn" 4 40
    [(5, 50), (6, 60)]).2.2 (by decide)

/-- C3: the claim as stated is false: the queue runner performs a status
change outside the Store validation. Its claim step assigns processing
directly to whatever row the second query returned, so a project that was
cancelled between the poll and the claim undergoes the illegal transition
cancelled to processing. -/
theorem c3_transition_counterexample :
    (queue_claim_step projCancelled 5).status = "processing"
    ∧ projCancelled.status = "cancelled"
    ∧ "processing" ∉ validTransitions "cancelled" := by
  exact ⟨rfl, rfl, by decide⟩

/-- C3 amended: UpdateProjectStatus validates against the legal transition
table, succeeding exactly on listed transitions and otherwise returning
failure with the row unchanged; the queue runner, however, bypasses it: its
claim step writes processing directly without consulting the table. -/
theorem c3_update_project_status (r : ProjectRow) (ns : String)
    (st et : Option Nat) (now : Nat) :
    (ns ∉ validTransitions r.status → update_project_status_row r ns st et = (false, r))
    ∧ ((update_project_status_row r ns st et).1 = true ↔ ns ∈ validTransitions r.status)
    ∧ (queue_claim_step r now).status = "processing" := by
  refine ⟨?_, ?_, rfl⟩
  · intro h
    simp [update_project_status_row, h]
  · unfold update_project_status_row
    by_cases h : ns ∈ validTransitions r.status <;> simp [h]

/-- C3 witness: the amended theorem applied at a queued project and the
illegal direct jump to finished. -/
theorem c3_update_project_status_witness :
    update_project_status_row projQueued "finished" none (some 9)
      = (false, projQueued) :=
  (c3_update_project_status projQueued "finished" none (some 9) 0).1 (by decide)

/-- C5: the claim as stated is false: get_bom_items_for_project issues no
ORDER BY, so the database may legally present the rows of a project in an
order other than their creation order. With two items created in id order, the
reversed presentation is a permutation of the filtered rows, yet the returned
list differs from the creation order. -/
theorem c5_order_counterexample :
    DbPresentation (fun l : List BomItemRow => l.reverse)
    ∧ get_bom_items_for_project [bomIt1, bomIt2] "p" (fun l => l.reverse)
        = [bomIt2, bomIt1]
    ∧ [bomIt2, bomIt1] ≠ [bomIt1, bomIt2]
    ∧ bomIt1.created_at < bomIt2.created_at := by
  refine ⟨fun l => l.reverse_perm, by decide, by decide, by decide⟩

/-- C5 amended: GetBomItems returns exactly the BomItems of the project — a
permutation of the rows filtered by project id, every returned row belonging
to the project — but since the query carries no ORDER BY the presentation
order is database-chosen, so neither creation order nor stability across
reads is guaranteed; GetFinishedProjectData likewise returns a database-chosen
permutation of the outer-join tuples of the project. -/
theorem c5_query_content (tbl : List BomItemRow) (pid : String)
    (present : List BomItemRow → List BomItemRow)
    (items : List BomItemRow) (matchRows : List MatchRow)
    (comps : List ComponentRow)
    (present2 : List (BomItemRow × Option MatchRow × Option ComponentRow) →
      List (BomItemRow × Option MatchRow × Option ComponentRow)) :
    (DbPresentation present →
      (get_bom_items_for_project tbl pid present).Perm
          (tbl.filter (fun r => r.project_id == pid))
      ∧ ∀ r ∈ get_bom_items_for_project tbl pid present, r.project_id = pid)
    ∧ (DbPresentation present2 →
      (get_finished_project_data items matchRows comps pid present2).Perm
          (finishedJoinRows items matchRows comps pid)
      ∧ ∀ x ∈ get_finished_project_data items matchRows comps pid present2,
          x.1.project_id = pid) := by
  constructor
  · intro hpres
    refine ⟨hpres _, ?_⟩
    intro r hr
    have hr2 : r ∈ tbl.filter (fun r => r.project_id == pid) :=
      (hpres _).mem_iff.mp hr
    have := List.of_mem_filter hr2
    simpa using this
  · intro hpres
    refine ⟨hpres _, ?_⟩
    intro x hx
    have hx2 : x ∈ finishedJoinRows items matchRows comps pid :=
      (hpres _).mem_iff.mp hx
    unfold finishedJoinRows at hx2
    rw [List.mem_flatMap] at hx2
    obtain ⟨b, hb, hxb⟩ := hx2
    have hbpid : b.project_id = pid := by
      have := List.of_mem_filter hb
      simpa using this
    rcases hms : matchRows.filter (fun m => m.bom_item_id == b.bom_item_id) with
      _ | ⟨m, ms⟩
    · rw [hms] at hxb
      simp only [List.mem_singleton] at hxb
      rw [hxb]
      exact hbpid
    · rw [hms] at hxb
      simp only [List.mem_map] at hxb
      obtain ⟨m2, _, hxeq⟩ := hxb
      rw [← hxeq]
      exact hbpid

/-- C5 witness: the amended theorem applied at a concrete table with the
identity presentation. -/
theorem c5_query_content_witness :
    (get_bom_items_for_project [bomIt1, bomIt2] "p" id).Perm
      ([bomIt1, bomIt2].filter (fun r => r.project_id == "p")) :=
  ((c5_query_content [bomIt1, bomIt2] "p" id [] [] [] id).1
    (fun l => List.Perm.refl l)).1

/-- C6: whenever the setup phase of process_project_from_db succeeds — the
project loaded — the project is finalized to finished with the end timestamp,
regardless of the per-item outcomes carried in the load, and the call reports
success; the error status can only result from a load exception. -/
theorem c6_finish_policy (load : LoadOutcome) (proj : ProjectRow) (now : Nat)
    (h : proj.status = "processing") :
    (∀ name desc items, load = LoadOutcome.ok name desc items →
      (process_project_from_db load proj now).1 = true
      ∧ (process_project_from_db load proj now).2.1.status = "finished"
      ∧ (process_project_from_db load proj now).2.1.end_time = some now)
    ∧ ((process_project_from_db load proj now).2.1.status = "error" →
        load = LoadOutcome.raises) := by
  have hmem : "finished" ∈ validTransitions proj.status := by rw [h]; decide
  cases load with
  | raises =>
    exact ⟨fun name desc items heq => by exact absurd heq (by intro hc; nomatch hc),
      fun _ => rfl⟩
  | notFound =>
    constructor
    · intro name desc items heq; nomatch heq
    · intro he
      have hp : (process_project_from_db LoadOutcome.notFound proj now).2.1 = proj := rfl
      rw [hp] at he
      rw [h] at he
      exact absurd he (by decide)
  | ok name0 desc0 items0 =>
    constructor
    · intro name desc items _
      refine ⟨rfl, ?_, ?_⟩
      · show (update_project_status_row proj "finished" none (some now)).2.status = "finished"
        simp [update_project_status_row, hmem]
      · show (update_project_status_row proj "finished" none (some now)).2.end_time = some now
        simp [update_project_status_row, hmem]
    · intro he
      have hf : (process_project_from_db (LoadOutcome.ok name0 desc0 items0)
          proj now).2.1.status = "finished" := by
        show (update_project_status_row proj "finished" none (some now)).2.status = "finished"
        simp [update_project_status_row, hmem]
      rw [hf] at he
      exact absurd he (by decide)

/-- C6 witness: a processing project whose load succeeds with no items is
finalized to finished with the end timestamp. -/
theorem c6_finish_policy_witness :
    (process_project_from_db (LoadOutcome.ok (some "board") none []) projProcessing 5).1 = true
    ∧ (process_project_from_db (LoadOutcome.ok (some "board") none [])
        projProcessing 5).2.1.status = "finished"
    ∧ (process_project_from_db (LoadOutcome.ok (some "board") none [])
        projProcessing 5).2.1.end_time = some 5 :=
  (c6_finish_policy (LoadOutcome.ok (some "board") none []) projProcessing 5 rfl).1
    (some "board") none [] rfl

theorem mkBOMComponent_error {it : BomItemRow} {e : PyExc}
    (h : mkBOMComponent it = Except.error e) : e = PyExc.validationErr := by
  unfold mkBOMComponent at h
  cases hq : it.quantity <;> cases hd : it.description <;>
    rw [hq, hd] at h <;> simp_all

theorem buildComponents_error {items : List BomItemRow} {e : PyExc}
    (h : buildComponents items = Except.error e) : e = PyExc.validationErr := by
  induction items with
  | nil => simp [buildComponents] at h
  | cons it rest ih =>
    rw [buildComponents] at h
    cases hit : mkBOMComponent it with
    | error e2 =>
      rw [hit] at h
      cases h
      exact mkBOMComponent_error hit
    | ok c =>
      rw [hit] at h
      cases hrest : buildComponents rest with
      | error e3 =>
        rw [hrest] at h
        cases h
        exact ih hrest
      | ok cs =>
        rw [hrest] at h
        simp at h

/-- C10: GET of a queued project whose optional name column is null fails with
a pydantic ValidationError instead of returning the documented queued
response, because the response is built through the InputBOM schema whose
project_name field is a required non-null string. -/
theorem c10_queued_null_name (proj : ProjectRow) (items : List BomItemRow)
    (pos total : Nat) (_hstatus : proj.status = "queued") (hname : proj.name = none) :
    get_project_queued proj items pos total = Except.error PyExc.validationErr := by
  unfold get_project_queued
  cases hc : buildComponents items with
  | error e =>
    have he := buildComponents_error hc
    subst he
    rfl
  | ok comps =>
    rw [hname]
    rfl

/-- C10 witness: a concrete queued project with a null name. -/
theorem c10_queued_null_name_witness :
    get_project_queued projQueuedNoName [] 1 1 = Except.error PyExc.validationErr :=
  c10_queued_null_name projQueuedNoName [] 1 1 rfl rfl

theorem foldl_append_processRow (l : List RawRow) (acc : List BOMComponent) :
    l.foldl (fun a c => a ++ [processRow c]) acc = acc ++ l.map processRow := by
  induction l generalizing acc with
  | nil => simp
  | cons c rest ih =>
    simp only [List.foldl_cons, List.map_cons, ih, List.append_assoc,
      List.singleton_append]

theorem take_of_if_length (l : List BOMComponent) :
    (if l.length > 20 then l.take 20 else l) = l.take 20 := by
  split
  · rfl
  · rw [List.take_of_length_le (by omega)]

/-- C8: the claim as stated is false: a request whose single row validates
directly against the canonical shape still triggers the LLM normalization
call, because create_project sends the reformat prompt unconditionally before
any validation. -/
theorem c8_llm_first_counterexample :
    model_validate ⟨some 1, some "10k resistor", some "0805", none, none, "row1"⟩
      = some ⟨1, "10k resistor", none, some "0805", none⟩
    ∧ (create_project [validRawRow] (ReformatOutcome.list [validRawRow])).llmCalled
        = true := ⟨rfl, rfl⟩

/-- C8 amended: ingestion invokes the LLM normalization pass unconditionally,
before any schema validation; per-row validation with fallback synthesis then
runs over the LLM output when it parsed to a list and over the raw rows
otherwise, and the result is capped at 20 rows. -/
theorem c8_ingestion_order (raws : List RawRow) (rf : ReformatOutcome) :
    (create_project raws rf).llmCalled = true
    ∧ (usesLlmOutput rf = false →
        (create_project raws rf).components = (raws.map processRow).take 20)
    ∧ (∀ rows, rf = ReformatOutcome.list rows →
        (create_project raws rf).components = (rows.map processRow).take 20) := by
  refine ⟨rfl, ?_, ?_⟩
  · intro hrf
    cases rf
    case list rows => simp [usesLlmOutput] at hrf
    all_goals
      simp only [create_project]
      rw [foldl_append_processRow, List.nil_append]
      exact take_of_if_length _
  · intro rows hrf
    subst hrf
    simp only [create_project]
    rw [foldl_append_processRow, List.nil_append]
    exact take_of_if_length _

/-- C8 witness: the amended theorem applied at a request whose reformat pass
failed, so validation ran over the raw rows. -/
theorem c8_ingestion_order_witness :
    (create_project [validRawRow] ReformatOutcome.llmError).components
      = ([validRawRow].map processRow).take 20 :=
  (c8_ingestion_order [validRawRow] ReformatOutcome.llmError).2.1 rfl

theorem step4_eq (env : ItemEnv) : step4 env = ("processing_error", none) := rfl

theorem step2_pending {env : ItemEnv} (h : (step2 env).1 = "pending") :
    (step2 env).2.isEmpty = false := by
  unfold step2 at *
  cases hs : env.searchLlm with
  | ok resp =>
    rw [hs] at h
    dsimp only at h ⊢
    by_cases he : (parse_search_terms resp).isEmpty = true
    · rw [if_pos he] at h
      dsimp only at h
      exact absurd h (by decide)
    · rw [if_neg he] at h ⊢
      simpa using he
  | error e =>
    rw [hs] at h
    cases e <;> exact absurd h (by decide)

theorem step2_cases (env : ItemEnv) :
    (step2 env).1 ∈ ["pending", "search_term_failed", "llm_error", "processing_error"] := by
  unfold step2
  cases env.searchLlm with
  | ok resp =>
    dsimp only
    by_cases he : (parse_search_terms resp).isEmpty = true
    · rw [if_pos he]
      exact (by decide :
        "search_term_failed" ∈ ["pending", "search_term_failed", "llm_error", "processing_error"])
    · rw [if_neg he]
      exact (by decide :
        "pending" ∈ ["pending", "search_term_failed", "llm_error", "processing_error"])
  | error e =>
    cases e <;>
      first
        | exact (by decide :
            "llm_error" ∈ ["pending", "search_term_failed", "llm_error", "processing_error"])
        | exact (by decide :
            "processing_error" ∈ ["pending", "search_term_failed", "llm_error", "processing_error"])

theorem step3Loop_cases (env : ItemEnv) (ts : List String) :
    ∀ acc seen, (step3Loop env ts acc seen).1 ∈ ["pending", "mouser_error", "processing_error"] := by
  induction ts with
  | nil =>
    intro acc seen
    unfold step3Loop
    exact (by decide : "pending" ∈ ["pending", "mouser_error", "processing_error"])
  | cons t rest ih =>
    intro acc seen
    unfold step3Loop
    cases hk : env.keyword t with
    | ok parts => exact ih _ _
    | error e =>
      cases e <;>
        first
          | exact (by decide : "mouser_error" ∈ ["pending", "mouser_error", "processing_error"])
          | exact (by decide : "processing_error" ∈ ["pending", "mouser_error", "processing_error"])

theorem guard_false_of_ne_pending {s : String} (h : (s == "pending") = false)
    (b : Bool) : ¬((s == "pending") && b) = true := by
  rw [h]
  simp

theorem step3_cases (env : ItemEnv) (terms : List String) :
    ((step3 env terms).1 = "pending" ∧ (step3 env terms).2.isEmpty = false)
      ∨ (step3 env terms).1 ∈ ["no_keyword_results", "mouser_error", "processing_error"] := by
  have hloop := step3Loop_cases env terms [] []
  unfold step3
  rcases hl : step3Loop env terms [] [] with ⟨stl, acc⟩
  rw [hl] at hloop
  simp only [List.mem_cons, List.not_mem_nil, or_false] at hloop
  dsimp only at hloop ⊢
  rcases hloop with rfl | rfl | rfl
  · by_cases he : acc.isEmpty = true
    · rw [if_pos (by rw [he]; rfl)]
      right
      exact (by decide :
        "no_keyword_results" ∈ ["no_keyword_results", "mouser_error", "processing_error"])
    · simp only [Bool.not_eq_true] at he
      rw [if_neg (by rw [he]; simp)]
      left
      exact ⟨rfl, he⟩
  · rw [if_neg (guard_false_of_ne_pending (by decide) _)]
    right
    exact (by decide : "mouser_error" ∈ ["no_keyword_results", "mouser_error", "processing_error"])
  · rw [if_neg (guard_false_of_ne_pending (by decide) _)]
    right
    exact (by decide :
      "processing_error" ∈ ["no_keyword_results", "mouser_error", "processing_error"])

theorem runSteps_char (env : ItemEnv) :
    ∃ st, runSteps env = Except.ok (st, none)
      ∧ st ∈ ["search_term_failed", "llm_error", "processing_error",
              "no_keyword_results", "mouser_error"] := by
  have h2cases := step2_cases env
  have h2pend := @step2_pending env
  have h3cases := step3_cases env (step2 env).2
  unfold runSteps
  rcases hs2 : step2 env with ⟨st2, terms⟩
  rw [hs2] at h2cases h2pend h3cases
  dsimp only at h2cases h2pend h3cases ⊢
  simp only [List.mem_cons, List.not_mem_nil, or_false] at h2cases
  rcases h2cases with rfl | rfl | rfl | rfl
  · have hne : terms.isEmpty = false := h2pend rfl
    rw [hne]
    rcases hs3 : step3 env terms with ⟨st3, results⟩
    rw [hs3] at h3cases
    dsimp only at h3cases ⊢
    rcases h3cases with ⟨hpend3, hne3⟩ | hmem3
    · subst hpend3
      rw [if_pos (show (("pending" : String) == "pending" && !false) = true from rfl)]
      dsimp only
      rw [hne3]
      exact ⟨"processing_error", rfl, by decide⟩
    · simp only [List.mem_cons, List.not_mem_nil, or_false] at hmem3
      rcases hmem3 with rfl | rfl | rfl
      · exact ⟨"no_keyword_results", rfl, by decide⟩
      · exact ⟨"mouser_error", rfl, by decide⟩
      · exact ⟨"processing_error", rfl, by decide⟩
  · exact ⟨"search_term_failed", rfl, by decide⟩
  · exact ⟨"llm_error", rfl, by decide⟩
  · exact ⟨"processing_error", rfl, by decide⟩

/-- C4: the claim as stated is false: a finished project can hold a BomItem
with no BomItemMatch row at all. Concretely, an item whose final commit fails
ends as worker_uncaught_exception with no row written — the commit exception
hits the except SQLAlchemyError clause whose name is unbound — while the
project worker still finalizes the project to finished. -/
theorem c4_missing_row_counterexample :
    (process_project_from_db (LoadOutcome.ok (some "board") none [(7, envSaveFail)])
        projProcessing 5).1 = true
    ∧ (process_project_from_db (LoadOutcome.ok (some "board") none [(7, envSaveFail)])
        projProcessing 5).2.1.status = "finished"
    ∧ (process_project_from_db (LoadOutcome.ok (some "board") none [(7, envSaveFail)])
        projProcessing 5).2.2 = []
    ∧ _process_single_bom_item envSaveFail 7 = ("worker_uncaught_exception", none) :=
  ⟨rfl, rfl, rfl, rfl⟩

/-- C4 amended: one pipeline run of a BomItem writes at most one BomItemMatch
row — none exactly when the worker ends in worker_uncaught_exception (a failed
final save or an exception escaping the step handlers), and exactly one
otherwise. A written row belongs to the item, carries a match_status from the
closed vocabulary, and holds a Component reference if and only if the status
is matched. -/
theorem c4_match_row_shape (env : ItemEnv) (i : Nat) :
    ((_process_single_bom_item env i).2 = none
      ↔ (_process_single_bom_item env i).1 = "worker_uncaught_exception")
    ∧ ∀ row, (_process_single_bom_item env i).2 = some row →
        row.bom_item_id = i ∧ row.match_status ∈ statusVocab
          ∧ (¬row.component_id = none ↔ row.match_status = "matched") := by
  obtain ⟨st, hrun, hmem⟩ := runSteps_char env
  have hprops : st ∈ statusVocab ∧ st ≠ "pending" ∧ st ≠ "matched"
      ∧ st ≠ "worker_uncaught_exception" := by
    fin_cases hmem <;> exact ⟨by decide, by decide, by decide, by decide⟩
  unfold _process_single_bom_item
  rw [hrun]
  dsimp only
  rw [if_neg hprops.2.1]
  by_cases hc : env.commitOk = true
  · rw [if_pos hc]
    constructor
    · simp only [Option.some_ne_none, false_iff]
      exact hprops.2.2.2
    · intro row hrow
      have hr : row = ⟨i, none, st⟩ := by
        injection hrow with h2
        exact h2.symm
      subst hr
      refine ⟨rfl, hprops.1, ?_⟩
      constructor
      · intro hnn
        exact absurd rfl hnn
      · intro hm
        exact absurd hm hprops.2.2.1
  · rw [if_neg hc]
    refine ⟨by simp, ?_⟩
    intro row hrow
    nomatch hrow

/-- C4 witness: the amended theorem applied at a concrete environment whose
run commits a processing_error row for item 1. -/
theorem c4_match_row_shape_witness :
    (1 : Nat) = 1 ∧ "processing_error" ∈ statusVocab
      ∧ (¬(none : Option Nat) = none ↔ "processing_error" = "matched") :=
  (c4_match_row_shape happyEnv 1).2 ⟨1, none, "processing_error"⟩ rfl

/-- C1: the claim as stated fails on the code: an item that reaches the
evaluation stage with candidate parts never becomes matched, because the
worker calls format_evaluation_prompt with five positional arguments while the
function takes four, so the TypeError is caught as processing_error before any
MPN is chosen — even when the Store already holds a component for the MPN the
LLM would have picked, and the commit succeeds. The match row records
processing_error with no Component reference. -/
theorem c1_happy_path_eval :
    _process_single_bom_item happyEnv 1
      = ("processing_error", some ⟨1, none, "processing_error"⟩)
    ∧ format_evaluation_prompt_args ≠ format_evaluation_prompt_params
    ∧ "processing_error" ≠ "matched" :=
  ⟨rfl, by decide, by decide⟩

/-- C9: the claim as stated fails on the code: the potential-match backfill of
the finished read does surface a failure. A part without price breaks parses
to the price string N/A; the backfill stores it in the potential_match
dictionary, the Decimal conversion failure is absorbed by the try block, but
the PotentialMatch response-model validation sits outside it and raises on the
non-numeric price, so the whole GET fails instead of returning partial data. -/
theorem c9_backfill_error_escapes :
    (_parse_mouser_part_data rawPartNoBreaks).price = "N/A"
    ∧ build_potential_match pmRowEx none
        (Except.ok (some (_parse_mouser_part_data rawPartNoBreaks))) 42
        = Except.error PyExc.validationErr
    ∧ get_project_finished_potentials
        [(pmRowEx, none, Except.ok (some (_parse_mouser_part_data rawPartNoBreaks)), 42)]
        = Except.error PyExc.validationErr :=
  ⟨rfl, rfl, rfl⟩

theorem mouserRequestGo_spec (responses : Nat → HttpResp) :
    ∀ (rem attempt : Nat) (delays : List Nat),
      ∃ n, n ≤ rem ∧ (1 ≤ rem → 1 ≤ n)
        ∧ (mouserRequestGo responses attempt rem delays).2.1 = attempt + n
        ∧ (mouserRequestGo responses attempt rem delays).2.2
            = delays ++ (List.range' attempt n).map delayFor := by
  intro rem
  induction rem with
  | zero =>
    intro attempt delays
    exact ⟨0, Nat.le_refl 0, by omega, by simp [mouserRequestGo], by simp [mouserRequestGo]⟩
  | succ rem ih =>
    intro attempt delays
    unfold mouserRequestGo
    cases hr : responses attempt with
    | transport =>
      obtain ⟨n, hle, _, hatt, hdel⟩ := ih (attempt + 1) (delays ++ [delayFor attempt])
      refine ⟨n + 1, by omega, by omega, ?_, ?_⟩
      · dsimp only
        rw [hatt]
        omega
      · dsimp only
        rw [hdel, List.range'_succ, List.map_cons]
        simp [List.append_assoc]
    | resp status body =>
      by_cases h200 : status = 200
      · subst h200
        cases body with
        | decoded errFlag payload =>
          cases errFlag <;>
            exact ⟨1, by omega, by omega, by simp, by simp [List.range'_succ]⟩
        | undecodable =>
          exact ⟨1, by omega, by omega, by simp, by simp [List.range'_succ]⟩
      · by_cases h429 : status = 429
        · subst h429
          obtain ⟨n, hle, _, hatt, hdel⟩ := ih (attempt + 1) (delays ++ [delayFor attempt])
          refine ⟨n + 1, by omega, by omega, ?_, ?_⟩
          · dsimp only
            rw [if_neg (by omega), if_pos rfl]
            rw [hatt]
            omega
          · dsimp only
            rw [if_neg (by omega), if_pos rfl]
            rw [hdel, List.range'_succ, List.map_cons]
            simp [List.append_assoc]
        · refine ⟨1, by omega, by omega, ?_, ?_⟩
          · dsimp only
            rw [if_neg h200, if_neg h429]
          · dsimp only
            rw [if_neg h200, if_neg h429]
            simp [List.range'_succ]

theorem range'_map_delayFor (m : Nat) :
    ∀ s, 1 ≤ s → (List.range' s m).map delayFor = List.replicate m RETRY_DELAY_MS := by
  induction m with
  | zero => intro s _; simp
  | succ m ih =>
    intro s hs
    rw [List.range'_succ, List.map_cons, ih (s + 1) (by omega), List.replicate_succ]
    congr 1
    unfold delayFor
    rw [if_pos (by omega)]

theorem range_map_delayFor (n : Nat) (hn : 1 ≤ n) :
    (List.range' 0 n).map delayFor
      = API_REQUEST_DELAY_MS :: List.replicate (n - 1) RETRY_DELAY_MS := by
  cases n with
  | zero => omega
  | succ m =>
    rw [List.range'_succ, List.map_cons, range'_map_delayFor m 1 (by omega)]
    rfl

theorem all429_resp {responses : Nat → HttpResp}
    (h : ∀ n, isResp429 (responses n) = true) (n : Nat) :
    ∃ b, responses n = HttpResp.resp 429 b := by
  have hn := h n
  cases hrn : responses n with
  | transport => rw [hrn] at hn; simp [isResp429] at hn
  | resp s b =>
    rw [hrn] at hn
    simp only [isResp429, beq_iff_eq] at hn
    subst hn
    exact ⟨b, rfl⟩

theorem make_mouser_request_all429 {responses : Nat → HttpResp}
    (h : ∀ n, isResp429 (responses n) = true) :
    (_make_mouser_request responses).1 = Except.error ()
      ∧ (_make_mouser_request responses).2.1 = MAX_RETRIES + 1 := by
  obtain ⟨b0, h0⟩ := all429_resp h 0
  obtain ⟨b1, h1⟩ := all429_resp h 1
  obtain ⟨b2, h2⟩ := all429_resp h 2
  obtain ⟨b3, h3⟩ := all429_resp h 3
  unfold _make_mouser_request MAX_RETRIES
  constructor <;>
    simp [mouserRequestGo, h0, h1, h2, h3]

/-- C7: the distributor request retry policy: the client performs at least one
and at most MAX_RETRIES + 1 requests; it sleeps API_REQUEST_DELAY before the
first request and RETRY_DELAY_SECONDS before every further attempt, and
nothing else; a first response that is neither 200 nor 429 fails immediately
after exactly one request; a persistent 429 exhausts all four attempts and
raises; and in that case the keyword search raises with no cache write — the
cache table is returned unchanged. -/
theorem c7_retry_policy (responses : Nat → HttpResp) :
    (1 ≤ (_make_mouser_request responses).2.1
      ∧ (_make_mouser_request responses).2.1 ≤ MAX_RETRIES + 1)
    ∧ (_make_mouser_request responses).2.2
        = API_REQUEST_DELAY_MS
            :: List.replicate ((_make_mouser_request responses).2.1 - 1) RETRY_DELAY_MS
    ∧ (∀ code body, responses 0 = HttpResp.resp code body → code ≠ 200 → code ≠ 429 →
        (_make_mouser_request responses).1 = Except.error ()
          ∧ (_make_mouser_request responses).2.1 = 1)
    ∧ ((∀ n, isResp429 (responses n) = true) →
        (_make_mouser_request responses).1 = Except.error ()
          ∧ (_make_mouser_request responses).2.1 = MAX_RETRIES + 1)
    ∧ (∀ (tbl : List CacheRow) (keyword : String) (now : Nat),
        get_cached_response tbl keyword "keyword" now = none →
        (∀ n, isResp429 (responses n) = true) →
        search_mouser_by_keyword tbl keyword now responses
          = (Except.error (), tbl, MAX_RETRIES + 1)) := by
  obtain ⟨n, hle, hge, hatt, hdel⟩ :=
    mouserRequestGo_spec responses (MAX_RETRIES + 1) 0 []
  have hn1 : 1 ≤ n := hge (by decide)
  have hatt2 : (_make_mouser_request responses).2.1 = n := by
    unfold _make_mouser_request
    omega
  refine ⟨?_, ?_, ?_, fun h => make_mouser_request_all429 h, ?_⟩
  · constructor
    · omega
    · rw [hatt2]; unfold MAX_RETRIES at hle ⊢; omega
  · show (mouserRequestGo responses 0 (MAX_RETRIES + 1) []).2.2 = _
    rw [hdel, List.nil_append, range_map_delayFor n hn1, hatt2]
  · intro code body hr h200 h429
    unfold _make_mouser_request MAX_RETRIES
    constructor <;> simp [mouserRequestGo, hr, h200, h429]
  · intro tbl keyword now hcache h429all
    have hall := make_mouser_request_all429 h429all
    unfold search_mouser_by_keyword
    rw [hcache]
    rcases hm : _make_mouser_request responses with ⟨res, reqs, ds⟩
    rw [hm] at hall
    dsimp only at hall
    rcases hall with ⟨hres, hreqs⟩
    subst hres
    subst hreqs
    rfl

/-- C7 witness: the retry theorem applied to a network that always answers
429: the request raises after exactly MAX_RETRIES + 1 attempts. -/
theorem c7_retry_policy_witness :
    (_make_mouser_request resp429).1 = Except.error ()
      ∧ (_make_mouser_request resp429).2.1 = MAX_RETRIES + 1 :=
  (c7_retry_policy resp429).2.2.2.1 (fun _ => rfl)

end PartFinder
